import Mathlib

/-!
Verification of the per-story version-history subsystem of the repository.

The embedded functions are translated from `src/types.ts` (the data model)
and from the editor component in `src/constants.tsx` (the same component is
duplicated in `src/unnamed/part_003`; the variant in
`src/components/Editor.tsx` differs only in lacking the preview guard and is
not the one the claims cite): `displayedStory`, `handleRevert`,
`handleFieldChange`, `createSnapshot`, `handleACChange`.

Conventions of the embedding:
* TypeScript optional fields (`versions?`, `figmaUrl?`, ...) become `Option`.
* A JavaScript array of strings that may acquire holes (out-of-bounds index
  assignment) is `List (Option String)`; a hole (`undefined`) is `none`.
* `Date.now()` and the generated version id are impure in the source; they
  are passed as explicit `now`/`vid` parameters.
* React state `previewVersionId : string | null` becomes `Option String`
  inside `EditorState`; `onUpdate` (which replaces the story wholesale via
  `handleUpdateStory` in `src/App.tsx`) becomes replacing the `story` field.
-/

/-- `Story.status` union type from `src/types.ts`:
`'Draft' | 'Ready' | 'In Progress' | 'Completed'`. -/
inductive StoryStatus where
  | draft
  | ready
  | inProgress
  | completed
deriving DecidableEq, Repr

/-- `RelationshipType` from `src/types.ts`. -/
inductive RelationshipType where
  | blocks
  | blockedBy
  | relatesTo
deriving DecidableEq, Repr

/-- `StoryRelationship` from `src/types.ts`. -/
structure StoryRelationship where
  id : String
  targetStoryId : String
  type : RelationshipType
deriving DecidableEq, Repr

/-- `StoryVersion` from `src/types.ts`.  Note that it has no `status`
field: a snapshot records only the narrative payload. -/
structure StoryVersion where
  id : String
  timestamp : Nat
  title : String
  description : String
  acceptanceCriteria : List (Option String)
  happyPath : String
  sadPath : String
  authorName : String
deriving DecidableEq, Repr

/-- `Story` from `src/types.ts`. -/
structure Story where
  id : String
  epicId : String
  title : String
  description : String
  acceptanceCriteria : List (Option String)
  happyPath : String
  sadPath : String
  status : StoryStatus
  figmaUrl : Option String
  figmaScreenshot : Option String
  versions : Option (List StoryVersion)
  relationships : Option (List StoryRelationship)
  activeUserIds : Option (List String)
deriving DecidableEq, Repr

/-- The editor component's state that the version-history logic reads:
the live story (held by the parent and replaced wholesale through
`onUpdate`) and the `previewVersionId` React state
(`src/constants.tsx`, line 229). -/
structure EditorState where
  story : Story
  previewVersionId : Option String
deriving DecidableEq, Repr

/-- The story's version list as the code reads it: `story.versions || []`. -/
def versList (s : Story) : List StoryVersion :=
  s.versions.getD []

/-- JavaScript array index assignment `arr[i] = v` on an array of strings:
in bounds it replaces the element; out of bounds it extends the array,
filling the gap with holes (`undefined`, modelled `none`). -/
def jsArraySet (l : List (Option String)) (i : Nat) (v : String) :
    List (Option String) :=
  if i < l.length then l.set i (some v)
  else l ++ List.replicate (i - l.length) none ++ [some v]

/-- The `newVersion` object literal built inside `createSnapshot`
(`src/constants.tsx`, lines 343-352): a snapshot of the story's current
narrative fields.  `[...acceptanceCriteria]` copies the array; copying is
the identity on immutable list values — the aliasing aspect is treated
separately in the `ACHeap` model below. -/
def mkVersion (s : Story) (author : String) (vid : String) (now : Nat) :
    StoryVersion :=
  { id := vid
    timestamp := now
    title := s.title
    description := s.description
    acceptanceCriteria := s.acceptanceCriteria
    happyPath := s.happyPath
    sadPath := s.sadPath
    authorName := author }

/-- `createSnapshot` from `src/constants.tsx` (lines 341-354): returns
`[newVersion, ...(story.versions || [])].slice(0, 20)`.
The optional `customStory` content override (used only by the AI-generation
paths, which no claim exercises) is not modelled; every call modelled here
passes no override, as in the source's `handleRevert`. -/
def createSnapshot (s : Story) (author : String) (vid : String) (now : Nat) :
    List StoryVersion :=
  (mkVersion s author vid now :: versList s).take 20

/-- A capture step at story level: the caller stores `createSnapshot`'s
result back into `story.versions` (as every call site in the source does). -/
def capture (s : Story) (author : String) (vid : String) (now : Nat) :
    Story :=
  { s with versions := some (createSnapshot s author vid now) }

/-- A field-update request: one `(field, value)` pair accepted by
`handleFieldChange (field: keyof Story, value: any)`. -/
inductive FieldUpdate where
  | title (v : String)
  | description (v : String)
  | acceptanceCriteria (v : List (Option String))
  | happyPath (v : String)
  | sadPath (v : String)
  | status (v : StoryStatus)
  | figmaUrl (v : String)
  | relationships (v : List StoryRelationship)
  | activeUserIds (v : List String)
deriving DecidableEq, Repr

/-- The spread `{ ...story, [field]: value }`: replace exactly one field. -/
def applyField (s : Story) : FieldUpdate → Story
  | .title v => { s with title := v }
  | .description v => { s with description := v }
  | .acceptanceCriteria v => { s with acceptanceCriteria := v }
  | .happyPath v => { s with happyPath := v }
  | .sadPath v => { s with sadPath := v }
  | .status v => { s with status := v }
  | .figmaUrl v => { s with figmaUrl := some v }
  | .relationships v => { s with relationships := some v }
  | .activeUserIds v => { s with activeUserIds := some v }

/-- `handleFieldChange` from `src/constants.tsx` (lines 336-339):
`if (previewVersionId) return; onUpdate({ ...story, [field]: value })`.
While a preview is active the edit is dropped; otherwise the story is
replaced with one field updated.  No snapshot is taken on this path. -/
def handleFieldChange (st : EditorState) (u : FieldUpdate) : EditorState :=
  match st.previewVersionId with
  | some _ => st
  | none => { st with story := applyField st.story u }

/-- `handleACChange` from `src/constants.tsx` (lines 356-361):
`if (previewVersionId) return;` then copies the criteria array, writes
`newAC[index] = value` (JavaScript index-assignment semantics), and commits
it through `handleFieldChange`. -/
def handleACChange (st : EditorState) (index : Nat) (value : String) :
    EditorState :=
  match st.previewVersionId with
  | some _ => st
  | none =>
      handleFieldChange st
        (.acceptanceCriteria (jsArraySet st.story.acceptanceCriteria index value))

/-- `displayedStory` from `src/constants.tsx` (lines 294-309): when a
preview id is set and `story.versions` is present, look the version up by
id; when found, project its five narrative fields over the live story;
in every other case (no preview, absent history, or id not found) return
the live story itself. -/
def displayedStory (st : EditorState) : Story :=
  match st.previewVersionId, st.story.versions with
  | some pid, some vs =>
      match vs.find? (fun v => v.id == pid) with
      | some version =>
          { st.story with
            title := version.title
            description := version.description
            acceptanceCriteria := version.acceptanceCriteria
            happyPath := version.happyPath
            sadPath := version.sadPath }
      | none => st.story
  | _, _ => st.story

/-- `handleRevert` from `src/constants.tsx` (lines 311-323): commit a story
whose five narrative fields are the chosen version's payload and whose
`versions` is `createSnapshot('Rollback to ' + time)` — evaluated against
the closure's `story`, i.e. the PRE-revert story — then clear the preview.
`timeLabel` stands for `new Date(version.timestamp).toLocaleTimeString()`. -/
def handleRevert (st : EditorState) (version : StoryVersion)
    (timeLabel : String) (vid : String) (now : Nat) : EditorState :=
  { story :=
      { st.story with
        title := version.title
        description := version.description
        acceptanceCriteria := version.acceptanceCriteria
        happyPath := version.happyPath
        sadPath := version.sadPath
        versions :=
          some (createSnapshot st.story ("Rollback to " ++ timeLabel) vid now) }
    previewVersionId := none }

/-- Entering preview mode: `setPreviewVersionId(version.id)`
(`src/constants.tsx`, line 692 region). -/
def selectVersion (st : EditorState) (vid : String) : EditorState :=
  { st with previewVersionId := some vid }

/-- Leaving preview mode: `setPreviewVersionId(null)`. -/
def clearPreview (st : EditorState) : EditorState :=
  { st with previewVersionId := none }

/-- Iterated capture: a sequence of `(authorLabel, versionId, timestamp)`
capture calls applied left to right. -/
def runCaptures (s : Story) : List (String × String × Nat) → Story
  | [] => s
  | (a, i, n) :: rest => runCaptures (capture s a i n) rest

/-- The version list is sorted newest-first: timestamps non-increasing
from head to tail. -/
def tsSortedDesc : List StoryVersion → Bool
  | [] => true
  | [_] => true
  | a :: b :: rest => (decide (b.timestamp ≤ a.timestamp)) && tsSortedDesc (b :: rest)

/-- Largest timestamp present in a version list (0 when empty). -/
def maxTs : List StoryVersion → Nat
  | [] => 0
  | v :: rest => max v.timestamp (maxTs rest)

/-- A monotone clock: each capture call's timestamp is at least the given
base and the timestamps are non-decreasing along the call sequence. -/
def tsMono : Nat → List (String × String × Nat) → Bool
  | _, [] => true
  | base, (_, _, now) :: rest => (decide (base ≤ now)) && tsMono now rest

/-- The snapshots a call sequence creates, newest first; `capture` leaves
every content field of the story unchanged, so each snapshot's payload is
the starting story's payload. -/
def snapsOf (s : Story) : List (String × String × Nat) → List StoryVersion
  | [] => []
  | (a, i, n) :: rest => snapsOf s rest ++ [mkVersion s a i n]

/-- A freshly created story (`handleAddStory` in `src/App.tsx` creates
stories with `versions: []`). -/
def emptyStory : Story :=
  { id := "s-1"
    epicId := "e-1"
    title := "New Story"
    description := ""
    acceptanceCriteria := []
    happyPath := ""
    sadPath := ""
    status := .draft
    figmaUrl := none
    figmaScreenshot := none
    versions := some []
    relationships := none
    activeUserIds := none }

/-- The 25 capture calls of the truncation scenario: author labels
`"A0" .. "A24"`, distinct ids, strictly increasing timestamps. -/
def scenario25 : List (String × String × Nat) :=
  (List.range 25).map (fun k => ("A" ++ toString k, "v" ++ toString k, k + 1))

/-!
## Heap model of acceptance-criteria array aliasing

The pure value embedding above cannot distinguish a copied array from an
aliased one, so the deep-copy property of `createSnapshot` is verified on a
small heap model that tracks only the acceptance-criteria arrays as
references into an allocation list.  Every operation of the source that
touches an acceptance-criteria array is modelled by how it reads, copies
and allocates arrays:

* `capture`: `createSnapshot` copies the live array into a freshly
  allocated one (`[...targetStory.acceptanceCriteria]`) and the new version
  stores the fresh reference;
* `revert`: `handleRevert` also calls `createSnapshot` (capturing the live
  array into a fresh reference), then sets the live field to
  `version.acceptanceCriteria` — the stored reference itself, an alias;
* `acChange`: `handleACChange` copies the live array
  (`[...story.acceptanceCriteria]`), writes the index on the copy, and
  commits the fresh array;
* `setAC`: the remaining UI paths (`+ Add Criterion`, delete) commit a
  freshly built array (`[...crit, '']` or `.filter`).
-/

namespace ACHeap

/-- An acceptance-criteria array value (entries may be holes). -/
abbrev ACArr := List (Option String)

/-- Heap of allocated arrays, the live story's array reference, and the
references held by the stored versions (newest first, bounded by 20 like
the version list itself). -/
structure VState where
  heap : List ACArr
  liveRef : Nat
  storedRefs : List Nat
deriving DecidableEq, Repr

/-- Read the array at a reference (empty for a dangling reference). -/
def readArr (h : List ACArr) (r : Nat) : ACArr :=
  (h[r]?).getD []

/-- The acceptance-criteria-relevant operations of the editor. -/
inductive VOp where
  | capture
  | revert (i : Nat)
  | acChange (idx : Nat) (v : String)
  | setAC (a : ACArr)
deriving DecidableEq, Repr

/-- One operation.  Allocation is always at the end of the heap;
no operation ever writes to an existing heap cell. -/
def applyOp (st : VState) : VOp → VState
  | .capture =>
      { heap := st.heap ++ [readArr st.heap st.liveRef]
        liveRef := st.liveRef
        storedRefs := (st.heap.length :: st.storedRefs).take 20 }
  | .revert i =>
      match st.storedRefs[i]? with
      | some r =>
          { heap := st.heap ++ [readArr st.heap st.liveRef]
            liveRef := r
            storedRefs := (st.heap.length :: st.storedRefs).take 20 }
      | none => st
  | .acChange idx v =>
      { heap := st.heap ++ [jsArraySet (readArr st.heap st.liveRef) idx v]
        liveRef := st.heap.length
        storedRefs := st.storedRefs }
  | .setAC a =>
      { heap := st.heap ++ [a]
        liveRef := st.heap.length
        storedRefs := st.storedRefs }

/-- A sequence of operations applied left to right. -/
def runOps (st : VState) : List VOp → VState
  | [] => st
  | op :: rest => runOps (applyOp st op) rest

end ACHeap

/-! ## Concrete instances used by counterexamples and witnesses -/

/-- A live story titled `"A"` with an empty history, not in preview mode. -/
def cSt1 : EditorState :=
  { story := { emptyStory with title := "A" }, previewVersionId := none }

/-- A stored version whose payload is the `"A"`-variant of the document. -/
def cV3 : StoryVersion :=
  { id := "v1", timestamp := 5, title := "A", description := "ad"
    acceptanceCriteria := [some "aa"], happyPath := "ah", sadPath := "as"
    authorName := "au" }

/-- A live story titled `"X"` holding `cV3` in its history, previewing it. -/
def cSt3 : EditorState :=
  { story := { emptyStory with title := "X", versions := some [cV3] }
    previewVersionId := some "v1" }

/-- Three stored versions, newest first, for the restore round trip. -/
def cV2c : StoryVersion :=
  { id := "id3", timestamp := 30, title := "T3", description := "D3"
    acceptanceCriteria := [some "c3"], happyPath := "H3", sadPath := "S3"
    authorName := "u3" }

def cV2b : StoryVersion :=
  { id := "id2", timestamp := 20, title := "T2", description := "D2"
    acceptanceCriteria := [some "c2"], happyPath := "H2", sadPath := "S2"
    authorName := "u2" }

def cV2a : StoryVersion :=
  { id := "id1", timestamp := 10, title := "T1", description := "D1"
    acceptanceCriteria := [some "c1"], happyPath := "H1", sadPath := "S1"
    authorName := "u1" }

/-- A story with history `[v3, v2, v1]` (newest first), previewing `v1`. -/
def cSt2 : EditorState :=
  { story := { emptyStory with title := "Live", versions := some [cV2c, cV2b, cV2a] }
    previewVersionId := some "id1" }

/-- A story not in preview mode, with one stored version. -/
def cSt5 : EditorState :=
  { story := { emptyStory with title := "L", versions := some [cV2c] }
    previewVersionId := none }

/-- A stored version present in `cSt6`'s history. -/
def cV6 : StoryVersion :=
  { id := "v1", timestamp := 1, title := "T1", description := "D1"
    acceptanceCriteria := [], happyPath := "", sadPath := ""
    authorName := "User" }

/-- A story previewing the absent version id `"zzz"`. -/
def cSt6 : EditorState :=
  { story := { emptyStory with versions := some [cV6] }
    previewVersionId := some "zzz" }

/-- A story with exactly two acceptance criteria, not in preview mode. -/
def cSt7 : EditorState :=
  { story := { emptyStory with acceptanceCriteria := [some "a", some "b"] }
    previewVersionId := none }

/-- A story whose optional `versions` field is absent (`undefined`). -/
def cS9 : Story :=
  { emptyStory with title := "N", versions := none }

/-- A concrete heap state: one allocated array, live story pointing at it,
one stored version aliasing nothing yet. -/
def cVS8 : ACHeap.VState :=
  { heap := [[some "a", some "b"]], liveRef := 0, storedRefs := [] }

/-- A concrete operation sequence: capture, edit a criterion, restore the
captured version, edit again after the restore. -/
def cOps8 : List ACHeap.VOp :=
  [.capture, .acChange 0 "edited", .revert 0, .acChange 1 "post-revert"]

/-! ## Claim theorems -/

/-- Case analysis on the preview projection: it returns either the live
story itself or the live story with only the five narrative fields replaced
by some stored version's payload. -/
theorem displayedStory_eq_cases (st : EditorState) :
    displayedStory st = st.story
    ∨ ∃ version : StoryVersion, displayedStory st =
        { st.story with
          title := version.title
          description := version.description
          acceptanceCriteria := version.acceptanceCriteria
          happyPath := version.happyPath
          sadPath := version.sadPath } := by
  cases h1 : st.previewVersionId with
  | none => left; simp [displayedStory, h1]
  | some pid =>
      cases h2 : st.story.versions with
      | none => left; simp [displayedStory, h1, h2]
      | some vs =>
          cases h3 : vs.find? (fun v => v.id == pid) with
          | none => left; simp [displayedStory, h1, h2, h3]
          | some version =>
              right; exact ⟨version, by simp [displayedStory, h1, h2, h3]⟩

/-- **C1, counterexample.** The claim predicts that committing a title
update `"A" → "B"` produces exactly one new Version whose payload is the
pre-update value.  In the code `handleFieldChange` never captures a
snapshot: committing `"B"` over `"A"` leaves the versions list exactly as
it was (here: still empty, length 0, not 1). -/
theorem c1_counterexample :
    cSt1.story.title = "A"
    ∧ (handleFieldChange cSt1 (.title "B")).story.title = "B"
    ∧ versList (handleFieldChange cSt1 (.title "B")).story = versList cSt1.story
    ∧ (versList (handleFieldChange cSt1 (.title "B")).story).length = 0 := by
  decide

/-- **C1, amended.** Committing an update to `title` or `description`
through the commit-edit path (`handleFieldChange`, outside preview mode)
never produces a new Version, whether or not the new value differs from the
previous one: the field is simply replaced and `versions` is untouched. -/
theorem c1_field_commit_never_snapshots (st : EditorState) (v : String)
    (h : st.previewVersionId = none) :
    (handleFieldChange st (.title v)).story.versions = st.story.versions
    ∧ (handleFieldChange st (.title v)).story.title = v
    ∧ (handleFieldChange st (.description v)).story.versions = st.story.versions
    ∧ (handleFieldChange st (.description v)).story.description = v := by
  simp [handleFieldChange, applyField, h]

/-- **C1, witness.** The amended theorem applied to the concrete story
titled `"A"` with the differing value `"B"`. -/
theorem c1_witness :
    cSt1.previewVersionId = none
    ∧ ((handleFieldChange cSt1 (.title "B")).story.versions = cSt1.story.versions
       ∧ (handleFieldChange cSt1 (.title "B")).story.title = "B"
       ∧ (handleFieldChange cSt1 (.description "B")).story.versions = cSt1.story.versions
       ∧ (handleFieldChange cSt1 (.description "B")).story.description = "B") :=
  ⟨rfl, c1_field_commit_never_snapshots cSt1 "B" rfl⟩

/-- **C3, counterexample.** The claim predicts the rollback Version records
the post-restore payload (`cV3`'s title `"A"`).  The code evaluates
`createSnapshot` against the pre-restore story, so the rollback Version's
title is the pre-restore live title `"X"`, not `"A"`. -/
theorem c3_counterexample :
    cSt3.story.title = "X"
    ∧ cV3.title = "A"
    ∧ (versList (handleRevert cSt3 cV3 "t0" "v-9" 100).story).head?.map
        StoryVersion.title = some "X"
    ∧ (versList (handleRevert cSt3 cV3 "t0" "v-9" 100).story).head?.map
        StoryVersion.title ≠ some cV3.title := by
  decide

/-- **C3, amended.** The rollback Version appended by `handleRevert`
records the **pre-restore** state: its payload fields equal the live fields
as they were just before the restore (while the live fields themselves
receive `v`'s payload), and it carries the rollback author label. -/
theorem c3_rollback_records_pre_restore (st : EditorState) (v : StoryVersion)
    (t vid : String) (now : Nat) :
    versList (handleRevert st v t vid now).story
      = { id := vid, timestamp := now, title := st.story.title
          description := st.story.description
          acceptanceCriteria := st.story.acceptanceCriteria
          happyPath := st.story.happyPath, sadPath := st.story.sadPath
          authorName := "Rollback to " ++ t }
        :: (versList st.story).take 19 := rfl

/-- **C6, counterexample.** The claim predicts a `VersionNotFound` failure
when the previewed id matches no stored version.  The code's projection is
total: with the absent id `"zzz"` it returns the live story itself, a
document, rather than failing. -/
theorem c6_counterexample :
    cSt6.previewVersionId = some "zzz"
    ∧ (versList cSt6.story).find? (fun v => v.id == "zzz") = none
    ∧ displayedStory cSt6 = cSt6.story := by
  decide

/-- **C6, amended.** Previewing an id that matches no stored version does
not fail: the projection falls back to the live story unchanged. -/
theorem c6_absent_preview_falls_back (st : EditorState) (pid : String)
    (h1 : st.previewVersionId = some pid)
    (h2 : (versList st.story).find? (fun v => v.id == pid) = none) :
    displayedStory st = st.story := by
  cases hv : st.story.versions with
  | none => simp [displayedStory, h1, hv]
  | some vs =>
      have hfind : vs.find? (fun v => v.id == pid) = none := by
        simpa [versList, hv] using h2
      simp [displayedStory, h1, hv, hfind]

/-- **C6, witness.** The amended theorem applied to the concrete story
previewing the absent id `"zzz"`. -/
theorem c6_witness :
    (cSt6.previewVersionId = some "zzz"
     ∧ (versList cSt6.story).find? (fun v => v.id == "zzz") = none)
    ∧ displayedStory cSt6 = cSt6.story :=
  ⟨⟨rfl, by decide⟩, c6_absent_preview_falls_back cSt6 "zzz" rfl (by decide)⟩

/-- **C7, counterexample.** The claim predicts `IndexOutOfRange` and an
unchanged story for index 99 on a 2-element criteria list.  The code
performs JavaScript index assignment with no bounds check: the story is
altered, the criteria array grows to length 100 with `"x"` at index 99 and
holes (`undefined`) in between. -/
theorem c7_counterexample :
    cSt7.story.acceptanceCriteria.length = 2
    ∧ (handleACChange cSt7 99 "x").story ≠ cSt7.story
    ∧ (handleACChange cSt7 99 "x").story.acceptanceCriteria.length = 100
    ∧ (handleACChange cSt7 99 "x").story.acceptanceCriteria.get? 99
        = some (some "x")
    ∧ (handleACChange cSt7 99 "x").story.acceptanceCriteria.get? 2
        = some none := by
  decide

/-- **C7, amended.** An out-of-bounds acceptance-criterion update (outside
preview mode) does not fail and does not leave the story unchanged: the
criteria array is extended with holes up to the index, the value is written
there, and the altered story is committed; no new Version is produced. -/
theorem c7_out_of_bounds_extends (st : EditorState) (i : Nat) (v : String)
    (h1 : st.previewVersionId = none)
    (h2 : st.story.acceptanceCriteria.length ≤ i) :
    (handleACChange st i v).story.acceptanceCriteria
      = st.story.acceptanceCriteria
        ++ List.replicate (i - st.story.acceptanceCriteria.length) none
        ++ [some v]
    ∧ (handleACChange st i v).story.versions = st.story.versions := by
  have hlt : ¬ i < st.story.acceptanceCriteria.length := Nat.not_lt.mpr h2
  simp [handleACChange, handleFieldChange, applyField, jsArraySet, h1, hlt]

/-- **C7, witness.** The amended theorem applied to the 2-criteria story at
index 99. -/
theorem c7_witness :
    (cSt7.previewVersionId = none
     ∧ cSt7.story.acceptanceCriteria.length ≤ 99)
    ∧ ((handleACChange cSt7 99 "x").story.acceptanceCriteria
        = cSt7.story.acceptanceCriteria
          ++ List.replicate (99 - cSt7.story.acceptanceCriteria.length) none
          ++ [some "x"]
       ∧ (handleACChange cSt7 99 "x").story.versions = cSt7.story.versions) :=
  ⟨⟨rfl, by decide⟩, c7_out_of_bounds_extends cSt7 99 "x" rfl (by decide)⟩

/-- **C2.** Restore round trip: `handleRevert` copies the chosen version's
five narrative payload fields into the live story, produces a versions list
of length `min (old + 1) 20` whose head is a fresh Version with an
author label of the form `"Rollback to " ++ _`, and clears preview mode. -/
theorem c2_restore_round_trip (st : EditorState) (v : StoryVersion)
    (t vid : String) (now : Nat)
    (hv : v ∈ versList st.story) :
    (handleRevert st v t vid now).story.title = v.title
    ∧ (handleRevert st v t vid now).story.description = v.description
    ∧ (handleRevert st v t vid now).story.acceptanceCriteria = v.acceptanceCriteria
    ∧ (handleRevert st v t vid now).story.happyPath = v.happyPath
    ∧ (handleRevert st v t vid now).story.sadPath = v.sadPath
    ∧ (versList (handleRevert st v t vid now).story).length
        = min ((versList st.story).length + 1) 20
    ∧ (∃ vr rest, versList (handleRevert st v t vid now).story = vr :: rest
        ∧ ∃ s2, vr.authorName = "Rollback to " ++ s2)
    ∧ (handleRevert st v t vid now).previewVersionId = none := by
  refine ⟨rfl, rfl, rfl, rfl, rfl, ?_, ?_, rfl⟩
  · simp only [handleRevert, versList, createSnapshot, Option.getD_some,
      List.length_take, List.length_cons]
    omega
  · exact ⟨_, _, rfl, t, rfl⟩

/-- **C2, witness.** The round trip on the concrete story holding
`[cV2c, cV2b, cV2a]` (newest first), restoring the oldest version. -/
theorem c2_witness :
    cV2a ∈ versList cSt2.story
    ∧ ((handleRevert cSt2 cV2a "09:00" "v-r" 99).story.title = cV2a.title
       ∧ (handleRevert cSt2 cV2a "09:00" "v-r" 99).story.description = cV2a.description
       ∧ (handleRevert cSt2 cV2a "09:00" "v-r" 99).story.acceptanceCriteria
           = cV2a.acceptanceCriteria
       ∧ (handleRevert cSt2 cV2a "09:00" "v-r" 99).story.happyPath = cV2a.happyPath
       ∧ (handleRevert cSt2 cV2a "09:00" "v-r" 99).story.sadPath = cV2a.sadPath
       ∧ (versList (handleRevert cSt2 cV2a "09:00" "v-r" 99).story).length
           = min ((versList cSt2.story).length + 1) 20
       ∧ (∃ vr rest, versList (handleRevert cSt2 cV2a "09:00" "v-r" 99).story
             = vr :: rest
           ∧ ∃ s2, vr.authorName = "Rollback to " ++ s2)
       ∧ (handleRevert cSt2 cV2a "09:00" "v-r" 99).previewVersionId = none) :=
  ⟨by decide, c2_restore_round_trip cSt2 cV2a "09:00" "v-r" 99 (by decide)⟩

/-- **C5.** Preview non-mutation: entering preview mode changes neither the
live story's fields nor its versions list; while the preview is active both
field updates and acceptance-criterion updates are rejected as no-ops; and
clearing the preview returns exactly the state from before the preview
started. -/
theorem c5_preview_non_mutation (st : EditorState) (vid : String)
    (u : FieldUpdate) (i : Nat) (val : String)
    (hlive : st.previewVersionId = none) :
    (selectVersion st vid).story = st.story
    ∧ versList (selectVersion st vid).story = versList st.story
    ∧ handleFieldChange (selectVersion st vid) u = selectVersion st vid
    ∧ handleACChange (selectVersion st vid) i val = selectVersion st vid
    ∧ clearPreview (selectVersion st vid) = st := by
  refine ⟨rfl, rfl, rfl, rfl, ?_⟩
  cases st with
  | mk s p =>
      have hp : p = none := hlive
      subst hp
      rfl

/-- **C5, witness.** The theorem applied to a concrete live-mode state,
previewing version id `"id3"` and attempting a title edit and a criterion
edit during the preview. -/
theorem c5_witness :
    cSt5.previewVersionId = none
    ∧ ((selectVersion cSt5 "id3").story = cSt5.story
       ∧ versList (selectVersion cSt5 "id3").story = versList cSt5.story
       ∧ handleFieldChange (selectVersion cSt5 "id3") (.title "Q")
           = selectVersion cSt5 "id3"
       ∧ handleACChange (selectVersion cSt5 "id3") 0 "z"
           = selectVersion cSt5 "id3"
       ∧ clearPreview (selectVersion cSt5 "id3") = cSt5) :=
  ⟨rfl, c5_preview_non_mutation cSt5 "id3" (.title "Q") 0 "z" rfl⟩

/-- **C9.** `createSnapshot` tolerates an absent (`undefined`) history:
when `story.versions` is absent it reads it as `[]`, so the capture returns
the one-element list holding only the new snapshot; being a total function
of the story it never fails. -/
theorem c9_capture_absent_history (s : Story) (a vid : String) (now : Nat)
    (h : s.versions = none) :
    versList (capture s a vid now)
      = [{ id := vid, timestamp := now, title := s.title
           description := s.description
           acceptanceCriteria := s.acceptanceCriteria
           happyPath := s.happyPath, sadPath := s.sadPath
           authorName := a }]
    ∧ (versList (capture s a vid now)).length = 1 := by
  constructor <;> simp [capture, versList, createSnapshot, mkVersion, h]

/-- **C9, witness.** The theorem applied to the concrete story whose
`versions` field is absent. -/
theorem c9_witness :
    cS9.versions = none
    ∧ (versList (capture cS9 "Gemini AI" "v-1" 7)
        = [{ id := "v-1", timestamp := 7, title := cS9.title
             description := cS9.description
             acceptanceCriteria := cS9.acceptanceCriteria
             happyPath := cS9.happyPath, sadPath := cS9.sadPath
             authorName := "Gemini AI" }]
       ∧ (versList (capture cS9 "Gemini AI" "v-1" 7)).length = 1) :=
  ⟨rfl, c9_capture_absent_history cS9 "Gemini AI" "v-1" 7 rfl⟩

/-- **C10.** Narrative-fields-only frame: the preview projection takes
`id`, `epicId`, `status`, `figmaUrl`, `relationships`, `activeUserIds` and
`versions` from the live story unchanged; restore likewise leaves `id`,
`epicId`, `status`, `figmaUrl`, `relationships` and `activeUserIds`
untouched; and a snapshot records no status at all — `createSnapshot` is
invariant under changing the story's `status`. -/
theorem c10_narrative_only_frame (st : EditorState) (v : StoryVersion)
    (t vid : String) (now : Nat) (s0 : Story) (a : String)
    (other : StoryStatus) :
    (displayedStory st).id = st.story.id
    ∧ (displayedStory st).epicId = st.story.epicId
    ∧ (displayedStory st).status = st.story.status
    ∧ (displayedStory st).figmaUrl = st.story.figmaUrl
    ∧ (displayedStory st).relationships = st.story.relationships
    ∧ (displayedStory st).activeUserIds = st.story.activeUserIds
    ∧ (displayedStory st).versions = st.story.versions
    ∧ (handleRevert st v t vid now).story.id = st.story.id
    ∧ (handleRevert st v t vid now).story.epicId = st.story.epicId
    ∧ (handleRevert st v t vid now).story.status = st.story.status
    ∧ (handleRevert st v t vid now).story.figmaUrl = st.story.figmaUrl
    ∧ (handleRevert st v t vid now).story.relationships = st.story.relationships
    ∧ (handleRevert st v t vid now).story.activeUserIds = st.story.activeUserIds
    ∧ createSnapshot { s0 with status := other } a vid now
        = createSnapshot s0 a vid now := by
  obtain h | ⟨w, h⟩ := displayedStory_eq_cases st <;> rw [h] <;>
    exact ⟨rfl, rfl, rfl, rfl, rfl, rfl, rfl, rfl, rfl, rfl, rfl, rfl, rfl, rfl⟩

/-- `tsSortedDesc` agrees with pairwise non-increasing timestamps. -/
theorem tsSortedDesc_iff_pairwise : ∀ l : List StoryVersion,
    tsSortedDesc l = true
      ↔ List.Pairwise (fun a b => b.timestamp ≤ a.timestamp) l
  | [] => by simp [tsSortedDesc]
  | [a] => by simp [tsSortedDesc]
  | a :: b :: rest => by
      rw [tsSortedDesc, Bool.and_eq_true, decide_eq_true_eq,
        tsSortedDesc_iff_pairwise (b :: rest)]
      constructor
      · rintro ⟨hab, hp⟩
        refine List.Pairwise.cons (fun w hw => ?_) hp
        rcases List.mem_cons.mp hw with h | h
        · exact h ▸ hab
        · exact le_trans ((List.pairwise_cons.mp hp).1 w h) hab
      · intro hp
        rcases List.pairwise_cons.mp hp with ⟨hall, hp2⟩
        exact ⟨hall b (List.mem_cons_self b rest), hp2⟩

/-- Every member's timestamp is bounded by `maxTs`. -/
theorem le_maxTs_of_mem : ∀ {l : List StoryVersion} {w : StoryVersion},
    w ∈ l → w.timestamp ≤ maxTs l
  | v :: rest, w, hw => by
      rcases List.mem_cons.mp hw with h | h
      · subst h; exact le_max_left _ _
      · exact le_trans (le_maxTs_of_mem h) (le_max_right _ _)

/-- `maxTs` is the least upper bound of the member timestamps. -/
theorem maxTs_le {l : List StoryVersion} {b : Nat}
    (h : ∀ w ∈ l, w.timestamp ≤ b) : maxTs l ≤ b := by
  induction l with
  | nil => exact Nat.zero_le b
  | cons v rest ih =>
      exact max_le (h v (List.mem_cons_self v rest))
        (ih (fun w hw => h w (List.mem_cons_of_mem v hw)))

/-- A monotone clock stays monotone when the base is lowered. -/
theorem tsMono_anti {b b' : Nat} : ∀ {calls : List (String × String × Nat)},
    b' ≤ b → tsMono b calls = true → tsMono b' calls = true := by
  intro calls hle hm
  cases calls with
  | nil => rfl
  | cons c rest =>
      obtain ⟨a, i, n⟩ := c
      rw [tsMono, Bool.and_eq_true, decide_eq_true_eq] at hm ⊢
      exact ⟨le_trans hle hm.1, hm.2⟩

/-- One capture with a timestamp at least the current maximum preserves
sortedness, keeps the maximum bounded by the new timestamp, and bounds the
length by 20. -/
theorem capture_invariant (s : Story) (a i : String) (n : Nat)
    (hsort : tsSortedDesc (versList s) = true)
    (hts : maxTs (versList s) ≤ n) :
    tsSortedDesc (versList (capture s a i n)) = true
    ∧ maxTs (versList (capture s a i n)) ≤ n
    ∧ (versList (capture s a i n)).length ≤ 20 := by
  have hv : versList (capture s a i n)
      = mkVersion s a i n :: (versList s).take 19 := rfl
  refine ⟨?_, ?_, ?_⟩
  · rw [hv, tsSortedDesc_iff_pairwise, List.pairwise_cons]
    refine ⟨fun w hw => ?_, ?_⟩
    · exact le_trans (le_maxTs_of_mem ((List.take_sublist 19 _).mem hw)) hts
    · exact ((tsSortedDesc_iff_pairwise _).mp hsort).sublist (List.take_sublist 19 _)
  · rw [hv, maxTs]
    refine max_le le_rfl (maxTs_le (fun w hw => ?_))
    exact le_trans (le_maxTs_of_mem ((List.take_sublist 19 _).mem hw)) hts
  · rw [hv]
    simpa using Nat.succ_le_succ (List.length_take_le 19 (versList s))

/-- The bound and sortedness invariants hold after any monotone-clock
capture sequence. -/
theorem runCaptures_invariant (calls : List (String × String × Nat)) :
    ∀ s : Story, (versList s).length ≤ 20 →
      tsSortedDesc (versList s) = true →
      tsMono (maxTs (versList s)) calls = true →
      (versList (runCaptures s calls)).length ≤ 20
      ∧ tsSortedDesc (versList (runCaptures s calls)) = true := by
  induction calls with
  | nil => exact fun s h1 h2 _ => ⟨h1, h2⟩
  | cons c rest ih =>
      intro s h1 h2 h3
      obtain ⟨a, i, n⟩ := c
      rw [tsMono, Bool.and_eq_true, decide_eq_true_eq] at h3
      obtain ⟨hble, hmono⟩ := h3
      obtain ⟨hs2, hm2, hl2⟩ := capture_invariant s a i n h2 hble
      exact ih (capture s a i n) hl2 hs2 (tsMono_anti hm2 hmono)

/-- `capture` changes no content field, so the snapshots a call sequence
would create are unchanged by a preceding capture. -/
theorem snapsOf_capture (s : Story) (a i : String) (n : Nat) :
    ∀ calls, snapsOf (capture s a i n) calls = snapsOf s calls
  | [] => rfl
  | (a2, i2, n2) :: rest => by
      rw [snapsOf, snapsOf, snapsOf_capture s a i n rest]
      rfl

/-- Truncating the suffix before appending does not change a truncated
append. -/
theorem take_append_take (n : Nat) (A B : List StoryVersion) :
    (A ++ B.take n).take n = (A ++ B).take n := by
  rw [List.take_append_eq_append_take, List.take_append_eq_append_take,
    List.take_take]
  congr 1
  exact congrArg B.take (Nat.min_eq_left (Nat.sub_le n A.length))

/-- The version list after a capture sequence is exactly the created
snapshots (newest first) in front of the initial history, truncated to the
20 most recent entries — the oldest entries are discarded first. -/
theorem runCaptures_versList (calls : List (String × String × Nat)) :
    ∀ s : Story, (versList s).length ≤ 20 →
      versList (runCaptures s calls) = (snapsOf s calls ++ versList s).take 20 := by
  induction calls with
  | nil =>
      intro s h1
      rw [snapsOf, List.nil_append, runCaptures]
      exact (List.take_of_length_le h1).symm
  | cons c rest ih =>
      intro s h1
      obtain ⟨a, i, n⟩ := c
      have hcap : (versList (capture s a i n)).length ≤ 20 := by
        simpa [capture, versList, createSnapshot] using
          List.length_take_le 20 (mkVersion s a i n :: versList s)
      rw [runCaptures, ih (capture s a i n) hcap, snapsOf_capture,
        show versList (capture s a i n)
          = (mkVersion s a i n :: versList s).take 20 from rfl,
        take_append_take, snapsOf]
      rw [List.append_assoc, List.singleton_append]

/-- **C4.** Retention bound and eviction order: starting from any versions
list of length at most 20 that is sorted newest-first, any capture sequence
under a monotone clock keeps the length at most 20 and the list sorted
newest-first, and the result is exactly the most recent snapshots in front
of the old history truncated to 20 (oldest discarded first); in particular
25 captures labeled `"A0" .. "A24"` from an empty story leave 20 versions
with head author `"A24"` and last author `"A5"`. -/
theorem c4_retention_bound (s : Story) (calls : List (String × String × Nat))
    (hlen : (versList s).length ≤ 20)
    (hsorted : tsSortedDesc (versList s) = true)
    (hclock : tsMono (maxTs (versList s)) calls = true) :
    (versList (runCaptures s calls)).length ≤ 20
    ∧ tsSortedDesc (versList (runCaptures s calls)) = true
    ∧ versList (runCaptures s calls) = (snapsOf s calls ++ versList s).take 20
    ∧ (versList (runCaptures emptyStory scenario25)).length = 20
    ∧ (versList (runCaptures emptyStory scenario25)).head?.map
        StoryVersion.authorName = some "A24"
    ∧ ((versList (runCaptures emptyStory scenario25)).get? 19).map
        StoryVersion.authorName = some "A5" := by
  obtain ⟨h1, h2⟩ := runCaptures_invariant calls s hlen hsorted hclock
  exact ⟨h1, h2, runCaptures_versList calls s hlen, by decide, by decide, by decide⟩

/-- **C4, witness.** The theorem applied to the empty story and the
25-capture scenario itself. -/
theorem c4_witness :
    ((versList emptyStory).length ≤ 20
     ∧ tsSortedDesc (versList emptyStory) = true
     ∧ tsMono (maxTs (versList emptyStory)) scenario25 = true)
    ∧ ((versList (runCaptures emptyStory scenario25)).length ≤ 20
       ∧ tsSortedDesc (versList (runCaptures emptyStory scenario25)) = true
       ∧ versList (runCaptures emptyStory scenario25)
           = (snapsOf emptyStory scenario25 ++ versList emptyStory).take 20
       ∧ (versList (runCaptures emptyStory scenario25)).length = 20
       ∧ (versList (runCaptures emptyStory scenario25)).head?.map
           StoryVersion.authorName = some "A24"
       ∧ ((versList (runCaptures emptyStory scenario25)).get? 19).map
           StoryVersion.authorName = some "A5") :=
  ⟨⟨by decide, by decide, by decide⟩,
   c4_retention_bound emptyStory scenario25 (by decide) (by decide) (by decide)⟩

/-- Every operation only ever appends to the heap; no existing array cell
is written. -/
theorem ACHeap.applyOp_heap_extend (st : ACHeap.VState) (op : ACHeap.VOp) :
    ∃ ext, (ACHeap.applyOp st op).heap = st.heap ++ ext := by
  cases op with
  | capture => exact ⟨_, rfl⟩
  | revert i =>
      cases h : st.storedRefs[i]? with
      | some r =>
          refine ⟨[ACHeap.readArr st.heap st.liveRef], ?_⟩
          simp [ACHeap.applyOp, h]
      | none => exact ⟨[], by simp [ACHeap.applyOp, h]⟩
  | acChange idx v => exact ⟨_, rfl⟩
  | setAC a => exact ⟨_, rfl⟩

/-- One operation preserves the content of every already-allocated array. -/
theorem ACHeap.applyOp_read_eq (st : ACHeap.VState) (op : ACHeap.VOp)
    (r : Nat) (hr : r < st.heap.length) :
    (ACHeap.applyOp st op).heap[r]? = st.heap[r]? := by
  obtain ⟨ext, hext⟩ := ACHeap.applyOp_heap_extend st op
  rw [hext, List.getElem?_append_left hr]

/-- Any operation sequence preserves the content of every array allocated
before it ran. -/
theorem ACHeap.runOps_read_eq (ops : List ACHeap.VOp) :
    ∀ (st : ACHeap.VState) (r : Nat), r < st.heap.length →
      (ACHeap.runOps st ops).heap[r]? = st.heap[r]? := by
  induction ops with
  | nil => exact fun st r _ => rfl
  | cons op rest ih =>
      intro st r hr
      obtain ⟨ext, hext⟩ := ACHeap.applyOp_heap_extend st op
      have hr2 : r < (ACHeap.applyOp st op).heap.length := by
        rw [hext, List.length_append]
        omega
      rw [ACHeap.runOps, ih (ACHeap.applyOp st op) r hr2,
        ACHeap.applyOp_read_eq st op r hr]

/-- **C8.** Snapshot deep-copy immutability: the array held by any
already-captured version (any reference allocated before) is unchanged by
every later sequence of editor operations — including reverts, which alias
a stored array into the live field, and criterion edits, which copy before
writing; a capture stores a freshly allocated reference whose content
equals the live array at capture time, and that fresh reference is distinct
from the live story's array reference. -/
theorem c8_snapshot_deep_copy (st : ACHeap.VState) (ops : List ACHeap.VOp)
    (r : Nat) (hr : r < st.heap.length) :
    (ACHeap.runOps st ops).heap[r]? = st.heap[r]?
    ∧ ACHeap.readArr (ACHeap.runOps st ops).heap r = ACHeap.readArr st.heap r
    ∧ (ACHeap.applyOp st .capture).storedRefs.head? = some st.heap.length
    ∧ ACHeap.readArr (ACHeap.applyOp st .capture).heap st.heap.length
        = ACHeap.readArr st.heap st.liveRef
    ∧ (st.liveRef < st.heap.length → st.heap.length ≠ st.liveRef) := by
  refine ⟨ACHeap.runOps_read_eq ops st r hr, ?_, rfl, ?_, fun h => by omega⟩
  · rw [ACHeap.readArr, ACHeap.readArr, ACHeap.runOps_read_eq ops st r hr]
  · rw [ACHeap.readArr, ACHeap.applyOp, List.getElem?_concat_length]
    rfl

/-- **C8, witness.** The theorem applied to a concrete heap with one live
array, running capture, a criterion edit, a revert, and a post-revert
criterion edit. -/
theorem c8_witness :
    0 < cVS8.heap.length
    ∧ ((ACHeap.runOps cVS8 cOps8).heap[0]? = cVS8.heap[0]?
       ∧ ACHeap.readArr (ACHeap.runOps cVS8 cOps8).heap 0
           = ACHeap.readArr cVS8.heap 0
       ∧ (ACHeap.applyOp cVS8 .capture).storedRefs.head? = some cVS8.heap.length
       ∧ ACHeap.readArr (ACHeap.applyOp cVS8 .capture).heap cVS8.heap.length
           = ACHeap.readArr cVS8.heap cVS8.liveRef
       ∧ (cVS8.liveRef < cVS8.heap.length → cVS8.heap.length ≠ cVS8.liveRef)) :=
  ⟨by decide, c8_snapshot_deep_copy cVS8 cOps8 0 (by decide)⟩
